import Mathlib

/-!
Verification of the AWS FinOps application (Vue.js frontend + remediation
backend). The frontend source (`api.js`, `RecommendationCard.vue`,
`RecommendationList.vue`, `App.vue`) is embedded directly; the backend
Execution Coordinator is modelled from the specification, as its Python
source is not part of the corpus.
-/

namespace FinOps

/-! ## Frontend data model (from `RecommendationList.vue` / `RecommendationCard.vue`) -/

/-- A recommendation as the frontend consumes it from `GET /recommendations`
(fields `check_id`, `status`, `category`, `estimated_savings`, `can_implement`;
`estimated_savings` may be absent/null, modelled as `Option ℚ`). -/
structure FrontRec where
  check_id : String
  status : String
  category : String
  estimated_savings : Option ℚ
  can_implement : Bool
deriving Repr, DecidableEq

/-- Entry of the `implementationSummary` list in `RecommendationList.vue`. -/
structure SummaryEntry where
  checkId : String
  message : String
  savings : ℚ
deriving Repr, DecidableEq

/-- The mutable state of the `RecommendationList` component that
`handleImplementationCompleted` touches. -/
structure ListState where
  recommendations : List FrontRec
  implementationSummary : List SummaryEntry
deriving Repr, DecidableEq

/-- The `implementation-completed` event payload emitted by
`RecommendationCard.vue` (`{ checkId, success, savings }`; note it carries no
dry-run marker). -/
structure CompletedEvent where
  checkId : String
  success : Bool
  savings : Option ℚ
deriving Repr, DecidableEq

/-! ## `api.js` (`src/frontend/src/services/api.js`) -/

/-- Options object passed to `apiService.implementRecommendation`; a missing
property is `none` (JS `undefined`). -/
structure ImplementOptions where
  dryRun : Option Bool
  force : Option Bool
deriving Repr, DecidableEq

/-- Request body of `POST /implement/{id}`: `{ dry_run: bool, force: bool }`. -/
structure ImplementBody where
  dry_run : Bool
  force : Bool
deriving Repr, DecidableEq

/-- JavaScript `b || false` for a possibly-undefined boolean property:
`undefined || false = false`, `false || false = false`, `true || false = true`. -/
def jsOrFalse : Option Bool → Bool
  | some b => b || false
  | none => false

/-- Embeds `apiService.implementRecommendation(checkId, options)` from
`api.js`: the URL and the body `{ dry_run: options.dryRun || false,
force: options.force || false }` that the client sends. -/
def implementRequest (checkId : String) (options : ImplementOptions) :
    String × ImplementBody :=
  ("/implement/" ++ checkId,
   { dry_run := jsOrFalse options.dryRun, force := jsOrFalse options.force })

/-! ## `RecommendationCard.vue` -/

/-- A transport/server error as the card's `catch` branch reads it:
`error.response?.data?.detail` is an optional string. -/
structure ApiError where
  detail : Option String
deriving Repr, DecidableEq

/-- A successful `ImplementationResult` response body as consumed by the card
(`success`, `message`, `savings`, `affected_resources`). -/
structure ImplResponse where
  success : Bool
  message : String
  savings : Option ℚ
  affected_resources : List String
deriving Repr, DecidableEq

/-- The `implementationResult` object the card displays. -/
structure DisplayedResult where
  success : Bool
  message : String
  savings : Option ℚ
  affected_resources : List String
deriving Repr, DecidableEq

/-- JavaScript `s || default` for a possibly-undefined string: an empty string
is falsy, so it also falls through to the default. -/
def jsOrString : Option String → String → String
  | some s, d => if s = "" then d else s
  | none, d => d

/-- Embeds `implementRecommendation(dryRun)` of `RecommendationCard.vue`:
given the outcome of the awaited API call, the new `implementationResult`
and the `implementation-completed` event emitted (if any). On success the
event `{ checkId, success, savings }` is always emitted — also for dry runs;
on error the result is `{ success: false, message: detail || 'Implementation
failed' }` and nothing is emitted. The `dryRun` argument only shapes the
request body (see `implementRequest`), not the response handling. -/
def cardImplement (checkId : String) (dryRun : Bool)
    (apiResult : Except ApiError ImplResponse) :
    ImplementBody × DisplayedResult × Option CompletedEvent :=
  let body := (implementRequest checkId { dryRun := some dryRun, force := none }).2
  match apiResult with
  | .ok result =>
      (body,
       { success := result.success, message := result.message,
         savings := result.savings,
         affected_resources := result.affected_resources },
       some { checkId := checkId, success := result.success,
              savings := result.savings })
  | .error error =>
      (body,
       { success := false,
         message := jsOrString error.detail "Implementation failed",
         savings := none, affected_resources := [] },
       none)

/-! ## `RecommendationList.vue` -/

/-- The summary entry `handleImplementationCompleted` builds from an event:
`{ checkId, message: 'Implementation succeeded'/'failed', savings: savings || 0 }`. -/
def summaryOf (result : CompletedEvent) : SummaryEntry :=
  { checkId := result.checkId,
    message := "Implementation " ++ (if result.success then "succeeded" else "failed"),
    savings := (result.savings).getD 0 }

/-- Replaces the `status` field of the first recommendation whose `check_id`
matches, as `findIndex` + element replacement does in the source. -/
def updateStatusAt (recs : List FrontRec) (checkId newStatus : String) :
    List FrontRec :=
  match recs.findIdx? (fun r => r.check_id = checkId) with
  | none => recs
  | some i =>
      match recs[i]? with
      | none => recs
      | some r => recs.set i { r with status := newStatus }

/-- Embeds `handleImplementationCompleted(result)` of `RecommendationList.vue`:
unshift the new summary entry, truncate to the 5 most recent, and rewrite the
matching recommendation's `status` to `'ok'` or `'error'` according to
`result.success` (there is no dry-run distinction in the event). -/
def handleImplementationCompleted (st : ListState) (result : CompletedEvent) :
    ListState :=
  let summary0 := summaryOf result :: st.implementationSummary
  let summary := if summary0.length > 5 then summary0.take 5 else summary0
  { recommendations :=
      updateStatusAt st.recommendations result.checkId
        (if result.success then "ok" else "error"),
    implementationSummary := summary }

/-- Embeds the `filteredRecommendations` predicate of `RecommendationList.vue`:
a recommendation passes iff each active (non-empty) filter matches it. -/
def matchesFilters (statusFilter categoryFilter implementationFilter : String)
    (rec : FrontRec) : Bool :=
  if statusFilter ≠ "" ∧ rec.status ≠ statusFilter then false
  else if categoryFilter ≠ "" ∧ rec.category ≠ categoryFilter then false
  else if implementationFilter = "auto" ∧ rec.can_implement = false then false
  else if implementationFilter = "manual" ∧ rec.can_implement = true then false
  else true

/-- The `filteredRecommendations` computed property. -/
def filteredRecommendations (statusFilter categoryFilter implementationFilter : String)
    (recs : List FrontRec) : List FrontRec :=
  recs.filter (matchesFilters statusFilter categoryFilter implementationFilter)

/-- The `totalSavings` computed property: a reduce over the FULL
`recommendations` list of `rec.estimated_savings || 0`. -/
def totalSavings (recs : List FrontRec) : ℚ :=
  recs.foldl (fun total rec => total + (rec.estimated_savings).getD 0) 0

/-- What the list template renders: the grid shows `filteredRecommendations`,
the header shows `totalSavings` of the unfiltered list. -/
structure RenderedList where
  visible : List FrontRec
  total : ℚ
deriving Repr, DecidableEq

/-- The rendered view of `RecommendationList.vue` for a given filter setting. -/
def renderList (recs : List FrontRec)
    (statusFilter categoryFilter implementationFilter : String) : RenderedList :=
  { visible := filteredRecommendations statusFilter categoryFilter implementationFilter recs,
    total := totalSavings recs }

/-! ## `App.vue` health check -/

/-- The `GET /health` response as `checkHealth` consumes it:
`{ status, aws_connection, timestamp }`. -/
structure HealthResponse where
  status : String
  aws_connection : Bool
  timestamp : String
deriving Repr, DecidableEq

/-- The health-related state of `App.vue`. -/
structure HealthState where
  healthStatus : String
  awsConnection : Bool
  lastHealthCheck : String
  healthLoading : Bool
deriving Repr, DecidableEq

/-- Embeds `checkHealth` of `App.vue`: on a successful call the three response
fields are copied into the state; on any failure `healthStatus := 'unhealthy'`
and `awsConnection := false`; `healthLoading` is cleared in `finally`.
`now` stands for `new Date().toLocaleString()` in the catch branch. -/
def checkHealth (_st : HealthState) (now : String)
    (response : Except String HealthResponse) : HealthState :=
  match response with
  | .ok health =>
      { healthStatus := health.status, awsConnection := health.aws_connection,
        lastHealthCheck := health.timestamp, healthLoading := false }
  | .error _ =>
      { healthStatus := "unhealthy", awsConnection := false,
        lastHealthCheck := now, healthLoading := false }

/-- The `healthStatusText` computed property of `App.vue`. -/
def healthStatusText (healthStatus : String) : String :=
  if healthStatus = "healthy" then "Healthy"
  else if healthStatus = "unhealthy" then "Unhealthy"
  else "Unknown"

/-! ## Execution Coordinator (spec §4.4)

The FastAPI backend (`backend/app/main.py` and services) is not part of the
corpus; only its REST surface and the spec describe it. The definitions below
are modelled from the spec. -/

/-- Modelled from the spec: the `ImplementationStatus.state` enumeration
(§3); the backend Status Tracker source is missing from the corpus. -/
inductive ImplState where
  | Idle
  | InProgress
  | Succeeded
  | Failed
  | PartiallyFailed
deriving Repr, DecidableEq

/-- Modelled from the spec: the user-visible coordinator errors of §7
relevant to a single request; the backend source is missing from the corpus. -/
inductive CoordError where
  | AlreadyInProgressError
  | NotAutomatableError
deriving Repr, DecidableEq

/-- Modelled from the spec: the `Recommendation` entity of §3 (the backend
model source is missing from the corpus). `kind` is the registry key. -/
structure Recommendation where
  id : String
  kind : String
  status : String
  estimatedSavingsPerMonth : ℚ
  affectedResources : List String
  canAutoImplement : Bool
deriving Repr, DecidableEq

/-- Modelled from the spec: an `ImplementationResult` (§3); the backend
source is missing from the corpus. -/
structure ImplementationResult where
  recommendationId : String
  success : Bool
  dryRun : Bool
  message : String
  savingsRealized : ℚ
  perResourceOutcomes : List (String × Bool)
deriving Repr, DecidableEq

/-- Modelled from the spec: an `Automation.execute(resources, dryRun)` is a
stateless function returning one outcome per resource, or an unrecoverable
error that occurred before any resource was processed (§3, §4.3, §4.4 step 3);
the backend automation sources are missing from the corpus. -/
def AutomationFun : Type :=
  List String → Bool → Except String (List (String × Bool))

/-- Modelled from the spec: the Automation Registry `lookup` (§4.2); the
backend source is missing from the corpus. -/
def Registry : Type := String → Option AutomationFun

/-- Modelled from the spec: the Status Tracker table plus the result history
(§3, §4.5); the backend source is missing from the corpus. A recommendation
that never executed reads as `Idle`. -/
structure CoordState where
  statuses : String → ImplState
  history : List ImplementationResult

/-- Modelled from the spec: the initial coordinator state — every
recommendation `Idle`, no history. -/
def initialCoordState : CoordState :=
  { statuses := fun _ => ImplState.Idle, history := [] }

/-- Modelled from the spec: §4.4 step 4 — classify the run: `Succeeded` iff
every outcome succeeded and at least one resource was processed; zero
resources is `Failed`; `PartiallyFailed` iff at least one succeeded and at
least one failed; `Failed` iff all failed or an unrecoverable error occurred
before any resource was processed. -/
def classifyRun : Except String (List (String × Bool)) → ImplState
  | .error _ => ImplState.Failed
  | .ok outcomes =>
      if outcomes.isEmpty then ImplState.Failed
      else if outcomes.all (fun o => o.2) then ImplState.Succeeded
      else if outcomes.any (fun o => o.2) then ImplState.PartiallyFailed
      else ImplState.Failed

/-- Modelled from the spec: the descriptive message of the result; §4.4 step 4
requires a zero-resource run to carry a descriptive failure message. -/
def runMessage : Except String (List (String × Bool)) → String
  | .error e => "Unrecoverable error: " ++ e
  | .ok outcomes =>
      if outcomes.isEmpty then
        "Failed: no affected resources to process"
      else
        toString (outcomes.filter (fun o => o.2)).length ++ " of " ++
          toString outcomes.length ++ " resources remediated"

/-- Modelled from the spec: §4.4 step 5 — `savingsRealized` is 0 for a dry
run; `estimatedSavingsPerMonth` for a `Succeeded` real run; prorated by the
fraction of succeeded resources on `PartiallyFailed`; 0 otherwise. -/
def savingsFor (dryRun : Bool) (estimated : ℚ)
    (invokeResult : Except String (List (String × Bool))) : ℚ :=
  if dryRun then 0
  else
    match classifyRun invokeResult, invokeResult with
    | ImplState.Succeeded, _ => estimated
    | ImplState.PartiallyFailed, .ok outcomes =>
        estimated * ((outcomes.filter (fun o => o.2)).length : ℚ) /
          (outcomes.length : ℚ)
    | _, _ => 0

/-- Modelled from the spec: §4.4 step 1 — the single-flight guard. If the id
is already `InProgress` the request fails with `AlreadyInProgressError` and
nothing changes; otherwise the state transitions to `InProgress`. -/
def beginImplement (st : CoordState) (id : String) :
    Except CoordError CoordState :=
  if st.statuses id = ImplState.InProgress then
    Except.error CoordError.AlreadyInProgressError
  else
    Except.ok
      { st with statuses := fun i => if i = id then ImplState.InProgress else st.statuses i }

/-- Modelled from the spec: §4.4 steps 3–6 once `InProgress` is held — invoke
the automation, classify, compute savings, persist the result, set the
terminal state (clearing `InProgress` before the call returns), and advance
the recommendation's `status` to `'ok'` only on a real `Succeeded` run. -/
def runAfterBegin (auto : AutomationFun) (rec : Recommendation) (dryRun : Bool)
    (st : CoordState) : ImplementationResult × CoordState × Recommendation :=
  let invokeResult := auto rec.affectedResources dryRun
  let terminal := classifyRun invokeResult
  let result : ImplementationResult :=
    { recommendationId := rec.id,
      success := terminal = ImplState.Succeeded,
      dryRun := dryRun,
      message := runMessage invokeResult,
      savingsRealized := savingsFor dryRun rec.estimatedSavingsPerMonth invokeResult,
      perResourceOutcomes :=
        match invokeResult with
        | .ok outcomes => outcomes
        | .error _ => [] }
  let rec' :=
    if dryRun then rec
    else if terminal = ImplState.Succeeded then { rec with status := "ok" } else rec
  (result,
   { statuses := fun i => if i = rec.id then terminal else st.statuses i,
     history := result :: st.history },
   rec')

/-- Modelled from the spec: §4.4 — the whole coordinator request: single-flight
guard, automation resolution (state reverts to its prior value on
`NotAutomatableError`), then execution. Returns the response, the coordinator
state after the call, and the (possibly updated) recommendation. -/
def implement (registry : Registry) (rec : Recommendation) (dryRun : Bool)
    (st : CoordState) :
    Except CoordError ImplementationResult × CoordState × Recommendation :=
  match beginImplement st rec.id with
  | .error e => (Except.error e, st, rec)
  | .ok st1 =>
      match registry rec.kind with
      | none => (Except.error CoordError.NotAutomatableError, st, rec)
      | some auto =>
          let r := runAfterBegin auto rec dryRun st1
          (Except.ok r.1, r.2.1, r.2.2)

/-- Terminal states of the implementation state machine. -/
def isTerminal : ImplState → Bool
  | ImplState.Succeeded => true
  | ImplState.Failed => true
  | ImplState.PartiallyFailed => true
  | _ => false

/-! ## Helper lemmas -/

/-- Folding `+ g r` from an accumulator equals the accumulator plus the sum of
the mapped list. -/
theorem foldl_add_map {α : Type} (g : α → ℚ) :
    ∀ (l : List α) (a : ℚ), l.foldl (fun t r => t + g r) a = a + (l.map g).sum := by
  intro l
  induction l with
  | nil => intro a; simp
  | cons x xs ih =>
      intro a
      simp only [List.foldl_cons, List.map_cons, List.sum_cons, ih]
      ring

/-- The run classification is always a terminal state. -/
theorem isTerminal_classifyRun (inv : Except String (List (String × Bool))) :
    isTerminal (classifyRun inv) = true := by
  cases inv with
  | error e => rfl
  | ok l =>
      simp only [classifyRun]
      split
      · rfl
      · split
        · rfl
        · split <;> rfl

/-- The run classification is never `InProgress`. -/
theorem classifyRun_ne_inProgress (inv : Except String (List (String × Bool))) :
    classifyRun inv ≠ ImplState.InProgress := by
  intro h
  have := isTerminal_classifyRun inv
  rw [h] at this
  exact absurd this (by decide)

/-! ## Claims -/

/-- C6: every `POST /implement/{id}` request issued by `api.js` carries a body
with boolean fields `dry_run` and `force` (by the type of `ImplementBody`);
when the caller omits `dryRun` the body's `dry_run` is `false`, and when the
caller omits `force` the body's `force` is `false`. -/
theorem c6_implement_body_defaults (checkId : String) (options : ImplementOptions) :
    (options.dryRun = none → (implementRequest checkId options).2.dry_run = false) ∧
    (options.force = none → (implementRequest checkId options).2.force = false) ∧
    (implementRequest checkId options).1 = "/implement/" ++ checkId := by
  refine ⟨?_, ?_, rfl⟩ <;> intro h <;> simp [implementRequest, jsOrFalse, h]

/-- Witness for C6 at a concrete call with both options omitted. -/
theorem c6_implement_body_defaults_witness :
    (implementRequest "check-1" { dryRun := none, force := none }).2.dry_run = false ∧
    (implementRequest "check-1" { dryRun := none, force := none }).2.force = false :=
  ⟨(c6_implement_body_defaults "check-1" { dryRun := none, force := none }).1 rfl,
   (c6_implement_body_defaults "check-1" { dryRun := none, force := none }).2.1 rfl⟩

/-- C7: whenever the health request fails, `checkHealth` in `App.vue` flips
`aws_connection` to `false` and the health status becomes `'unhealthy'`
(displayed as "Unhealthy"); on success the state is exactly the consumed
`{ status, aws_connection, timestamp }` response shape. -/
theorem c7_health_failure_flips (st : HealthState) (now e : String)
    (h : HealthResponse) :
    checkHealth st now (Except.error e)
      = { healthStatus := "unhealthy", awsConnection := false,
          lastHealthCheck := now, healthLoading := false } ∧
    healthStatusText (checkHealth st now (Except.error e)).healthStatus = "Unhealthy" ∧
    checkHealth st now (Except.ok h)
      = { healthStatus := h.status, awsConnection := h.aws_connection,
          lastHealthCheck := h.timestamp, healthLoading := false } :=
  ⟨rfl, rfl, rfl⟩

/-- C8: a failing `implementRecommendation` call in `RecommendationCard.vue`
still yields a structured result: `success = false` and a non-empty
human-readable message, never a bare transport error. -/
theorem c8_structured_error_result (checkId : String) (dryRun : Bool)
    (err : ApiError) :
    (cardImplement checkId dryRun (Except.error err)).2.1.success = false ∧
    (cardImplement checkId dryRun (Except.error err)).2.1.message ≠ "" := by
  refine ⟨rfl, ?_⟩
  show jsOrString err.detail "Implementation failed" ≠ ""
  cases h : err.detail with
  | none => simp [jsOrString]
  | some s =>
      simp only [jsOrString]
      split
      · simp
      · next hns => exact hns

/-- C9: the displayed total savings is the sum of `estimated_savings` over ALL
recommendations (`null` contributing 0) and does not depend on the status,
category, or implementation filters. -/
theorem c9_total_savings_filter_independent (recs : List FrontRec)
    (sf cf impf sf2 cf2 impf2 : String) :
    (renderList recs sf cf impf).total
      = (recs.map (fun r => (r.estimated_savings).getD 0)).sum ∧
    (renderList recs sf cf impf).total = (renderList recs sf2 cf2 impf2).total := by
  constructor
  · show totalSavings recs = _
    simpa using foldl_add_map (fun r => (r.estimated_savings).getD 0) recs 0
  · rfl

/-- C10: after every completed implementation event the recent-implementations
summary is exactly the new entry prepended and truncated to the 5 most recent:
it has at most 5 entries and the new entry is at the front. -/
theorem c10_summary_bounded_newest_first (st : ListState) (result : CompletedEvent) :
    (handleImplementationCompleted st result).implementationSummary
      = (summaryOf result :: st.implementationSummary).take 5 ∧
    (handleImplementationCompleted st result).implementationSummary.length ≤ 5 ∧
    (handleImplementationCompleted st result).implementationSummary.head?
      = some (summaryOf result) := by
  have hsum : (handleImplementationCompleted st result).implementationSummary
      = (summaryOf result :: st.implementationSummary).take 5 := by
    show (if (summaryOf result :: st.implementationSummary).length > 5
          then (summaryOf result :: st.implementationSummary).take 5
          else summaryOf result :: st.implementationSummary)
        = (summaryOf result :: st.implementationSummary).take 5
    split
    · rfl
    · next hle => exact (List.take_of_length_le (Nat.le_of_not_lt hle)).symm
  refine ⟨hsum, ?_, ?_⟩
  · rw [hsum]
    simp
  · rw [hsum]
    rfl

/-- Opening move of every non-guarded request: `beginImplement` succeeds and
sets the id `InProgress`. -/
theorem beginImplement_ok (st : CoordState) (id : String)
    (hfree : st.statuses id ≠ ImplState.InProgress) :
    beginImplement st id = Except.ok
      { st with statuses := fun i => if i = id then ImplState.InProgress else st.statuses i } := by
  unfold beginImplement
  rw [if_neg hfree]

/-- C2: on a real run classified `PartiallyFailed`, `savingsRealized` equals
`estimatedSavingsPerMonth` times (succeeded resources) / (affected resources).
Spec-modelled: the backend Execution Coordinator is not in the corpus. -/
theorem c2_partial_failure_proration (registry : Registry) (auto : AutomationFun)
    (rec : Recommendation) (st : CoordState) (outcomes : List (String × Bool))
    (hfree : st.statuses rec.id ≠ ImplState.InProgress)
    (hauto : registry rec.kind = some auto)
    (hrun : auto rec.affectedResources false = Except.ok outcomes)
    (hper : outcomes.map Prod.fst = rec.affectedResources)
    (hclass : classifyRun (Except.ok outcomes) = ImplState.PartiallyFailed) :
    ∃ res, (implement registry rec false st).1 = Except.ok res ∧
      res.savingsRealized = rec.estimatedSavingsPerMonth *
        ((outcomes.filter (fun o => o.2)).length : ℚ) /
        (rec.affectedResources.length : ℚ) := by
  have hlen : rec.affectedResources.length = outcomes.length := by
    rw [← hper, List.length_map]
  simp only [implement, beginImplement_ok st rec.id hfree, hauto]
  refine ⟨_, rfl, ?_⟩
  simp only [runAfterBegin, hrun, savingsFor, hclass, if_neg Bool.false_ne_true, hlen]

/-- Concrete automation for the C2 witness: 3 of 4 resources succeed. -/
def c2Auto : AutomationFun :=
  fun _ _ => Except.ok [("r1", true), ("r2", true), ("r3", true), ("r4", false)]

/-- Concrete recommendation for the C2 witness: 100 $/month, 4 resources. -/
def c2Rec : Recommendation :=
  { id := "rec-1", kind := "stop_idle_instances", status := "warning",
    estimatedSavingsPerMonth := 100,
    affectedResources := ["r1", "r2", "r3", "r4"], canAutoImplement := true }

/-- Witness for C2: with `estimatedSavingsPerMonth = 100` and 4 affected
resources of which 3 succeed, the real run realizes savings of 75. -/
theorem c2_partial_failure_proration_witness :
    ∃ res, (implement (fun _ => some c2Auto) c2Rec false initialCoordState).1
        = Except.ok res ∧ res.savingsRealized = 75 := by
  obtain ⟨res, hres, hsav⟩ :=
    c2_partial_failure_proration (fun _ => some c2Auto) c2Auto c2Rec
      initialCoordState [("r1", true), ("r2", true), ("r3", true), ("r4", false)]
      (by decide) rfl rfl rfl (by decide)
  refine ⟨res, hres, ?_⟩
  rw [hsav]
  norm_num [c2Rec, List.filter]

/-- C3: single-flight per recommendation id. Spec-modelled (the backend
Execution Coordinator is not in the corpus): a request arriving while the id
is `InProgress` fails with `AlreadyInProgressError` leaving the state
untouched (no new execution), so the interleaving of two concurrent requests
for the same id yields exactly one terminal result (appended once to the
history) and one `AlreadyInProgressError`. -/
theorem c3_single_flight (registry : Registry) (auto : AutomationFun)
    (rec : Recommendation) (d1 d2 : Bool) (st : CoordState)
    (hfree : st.statuses rec.id ≠ ImplState.InProgress)
    (hauto : registry rec.kind = some auto) :
    ∃ st1, beginImplement st rec.id = Except.ok st1 ∧
      implement registry rec d2 st1
        = (Except.error CoordError.AlreadyInProgressError, st1, rec) ∧
      implement registry rec d1 st
        = (Except.ok (runAfterBegin auto rec d1 st1).1, (runAfterBegin auto rec d1 st1).2) ∧
      isTerminal ((runAfterBegin auto rec d1 st1).2.1.statuses rec.id) = true ∧
      (runAfterBegin auto rec d1 st1).2.1.history
        = (runAfterBegin auto rec d1 st1).1 :: st.history := by
  refine ⟨_, beginImplement_ok st rec.id hfree, ?_, ?_, ?_, ?_⟩
  · have hb2 : beginImplement
        { st with statuses := fun i => if i = rec.id then ImplState.InProgress else st.statuses i }
        rec.id = Except.error CoordError.AlreadyInProgressError := by
      unfold beginImplement
      rw [if_pos]
      simp
    simp only [implement, hb2]
  · simp only [implement, beginImplement_ok st rec.id hfree, hauto]
  · simp only [runAfterBegin]
    simpa using isTerminal_classifyRun (auto rec.affectedResources d1)
  · simp only [runAfterBegin]

/-- Concrete automation for the C3 witness: every resource succeeds. -/
def c3Auto : AutomationFun :=
  fun resources _ => Except.ok (resources.map (fun r => (r, true)))

/-- Concrete recommendation for the C3 witness. -/
def c3Rec : Recommendation :=
  { id := "rec-2", kind := "delete_unused_volumes", status := "warning",
    estimatedSavingsPerMonth := 50,
    affectedResources := ["vol-1", "vol-2"], canAutoImplement := true }

/-- Witness for C3 at a concrete state and registry. -/
theorem c3_single_flight_witness :
    ∃ st1, beginImplement initialCoordState "rec-2" = Except.ok st1 ∧
      implement (fun _ => some c3Auto) c3Rec true st1
        = (Except.error CoordError.AlreadyInProgressError, st1, c3Rec) ∧
      implement (fun _ => some c3Auto) c3Rec false initialCoordState
        = (Except.ok (runAfterBegin c3Auto c3Rec false st1).1,
           (runAfterBegin c3Auto c3Rec false st1).2) ∧
      isTerminal ((runAfterBegin c3Auto c3Rec false st1).2.1.statuses "rec-2") = true ∧
      (runAfterBegin c3Auto c3Rec false st1).2.1.history
        = (runAfterBegin c3Auto c3Rec false st1).1 :: initialCoordState.history :=
  c3_single_flight (fun _ => some c3Auto) c3Auto c3Rec false true
    initialCoordState (by decide) rfl

/-- C4: run classification. Spec-modelled (the backend Execution Coordinator
is not in the corpus): `Succeeded` iff every outcome succeeded and at least
one resource was processed; a zero-resource run is `Failed` with a
descriptive message, never `Succeeded`; `PartiallyFailed` iff at least one
succeeded and at least one failed; `Failed` iff all failed or an
unrecoverable error occurred before any resource was processed. -/
theorem c4_run_classification (inv : Except String (List (String × Bool))) :
    (classifyRun inv = ImplState.Succeeded ↔
        ∃ l, inv = Except.ok l ∧ l ≠ [] ∧ ∀ o ∈ l, o.2 = true) ∧
    (classifyRun (Except.ok ([] : List (String × Bool))) = ImplState.Failed ∧
        runMessage (Except.ok ([] : List (String × Bool))) ≠ "") ∧
    (classifyRun inv = ImplState.PartiallyFailed ↔
        ∃ l, inv = Except.ok l ∧ (∃ o ∈ l, o.2 = true) ∧ (∃ o ∈ l, o.2 = false)) ∧
    (classifyRun inv = ImplState.Failed ↔
        (∃ e, inv = Except.error e) ∨ ∃ l, inv = Except.ok l ∧ ∀ o ∈ l, o.2 = false) := by
  refine ⟨?_, ⟨rfl, by decide⟩, ?_, ?_⟩
  · cases inv with
    | error e => simp [classifyRun]
    | ok l =>
        simp only [classifyRun, Except.ok.injEq]
        constructor
        · intro h
          split_ifs at h with h1 h2
          exact ⟨l, rfl, by simpa [List.isEmpty_iff] using h1, fun o ho =>
            List.all_eq_true.mp h2 o ho⟩
        · rintro ⟨l', rfl, hne, hall⟩
          rw [if_neg (by simpa [List.isEmpty_iff] using hne),
            if_pos (List.all_eq_true.mpr hall)]
  · cases inv with
    | error e => simp [classifyRun]
    | ok l =>
        simp only [classifyRun, Except.ok.injEq]
        constructor
        · intro h
          split_ifs at h with h1 h2 h3
          refine ⟨l, rfl, List.any_eq_true.mp h3, ?_⟩
          obtain ⟨o, ho, hfalse⟩ :=
            List.all_eq_false.mp (by rwa [Bool.not_eq_true] at h2)
          exact ⟨o, ho, by rwa [Bool.not_eq_true] at hfalse⟩
        · rintro ⟨l', rfl, ⟨ot, hot, htrue⟩, ⟨og, hog, hfalse⟩⟩
          have hne : l.isEmpty = false :=
            List.isEmpty_eq_false.mpr (List.ne_nil_of_mem hot)
          have hnotall : l.all (fun o => o.2) = false :=
            List.all_eq_false.mpr ⟨og, hog, by simp [hfalse]⟩
          have hany : l.any (fun o => o.2) = true :=
            List.any_eq_true.mpr ⟨ot, hot, htrue⟩
          rw [hne, hnotall, hany]
          rfl
  · cases inv with
    | error e => simp [classifyRun]
    | ok l =>
        simp only [classifyRun, Except.ok.injEq]
        constructor
        · intro h
          split_ifs at h with h1 h2 h3
          · refine Or.inr ⟨l, rfl, ?_⟩
            intro o ho
            rw [List.isEmpty_iff] at h1
            subst h1
            cases ho
          · refine Or.inr ⟨l, rfl, ?_⟩
            intro o ho
            have hall := List.any_eq_false.mp (by rwa [Bool.not_eq_true] at h3)
            have hno := hall o ho
            rwa [Bool.not_eq_true] at hno
        · rintro (⟨e, he⟩ | ⟨l', rfl, hallf⟩)
          · cases he
          · by_cases hemp : l = []
            · subst hemp
              rfl
            · have hne : l.isEmpty = false := List.isEmpty_eq_false.mpr hemp
              have hnotall : l.all (fun o => o.2) = false := by
                rcases l with _ | ⟨x, xs⟩
                · exact absurd rfl hemp
                · exact List.all_eq_false.mpr
                    ⟨x, List.mem_cons_self x xs,
                     by simp [hallf x (List.mem_cons_self x xs)]⟩
              have hnoany : l.any (fun o => o.2) = false :=
                List.any_eq_false.mpr (fun o ho => by simp [hallf o ho])
              rw [hne, hnotall, hnoany]
              rfl

/-- C5: a request for a recommendation kind with no registered automation
fails with `NotAutomatableError`, attempts no execution, and leaves the
`ImplementationStatus` at its prior value (so a never-executed recommendation
stays `Idle`). Spec-modelled: the backend Execution Coordinator is not in the
corpus. -/
theorem c5_not_automatable (registry : Registry) (rec : Recommendation)
    (dryRun : Bool) (st : CoordState)
    (hfree : st.statuses rec.id ≠ ImplState.InProgress)
    (hnone : registry rec.kind = none) :
    implement registry rec dryRun st
      = (Except.error CoordError.NotAutomatableError, st, rec) := by
  simp only [implement, beginImplement_ok st rec.id hfree, hnone]

/-- Concrete recommendation for the C5 witness: a kind nobody registered. -/
def c5Rec : Recommendation :=
  { id := "rec-3", kind := "mystery_kind", status := "warning",
    estimatedSavingsPerMonth := 10, affectedResources := ["x-1"],
    canAutoImplement := false }

/-- Witness for C5: with an empty registry and a fresh (`Idle`) status table,
the request fails with `NotAutomatableError` and the state is untouched. -/
theorem c5_not_automatable_witness :
    implement (fun _ => none) c5Rec false initialCoordState
      = (Except.error CoordError.NotAutomatableError, initialCoordState, c5Rec) ∧
    initialCoordState.statuses "rec-3" = ImplState.Idle :=
  ⟨c5_not_automatable (fun _ => none) c5Rec false initialCoordState
      (by decide) rfl, rfl⟩

/-- C1 counterexample inputs: a warning-status recommendation shown in the
list, and a successful dry-run response for it. -/
def c1Rec : FrontRec :=
  { check_id := "check-1", status := "warning", category := "cost_optimization",
    estimated_savings := some 100, can_implement := true }

/-- The list state before the dry run: one recommendation, status `warning`. -/
def c1ListState : ListState :=
  { recommendations := [c1Rec], implementationSummary := [] }

/-- A successful dry-run response body. -/
def c1Response : ImplResponse :=
  { success := true, message := "Dry run: 2 idle instances would be stopped",
    savings := some 0, affected_resources := ["i-1", "i-2"] }

/-- C1 counterexample: a completed dry run DOES rewrite the recommendation's
stored status in the frontend. The card emits the `implementation-completed`
event for a dry run too (the event carries no dry-run marker), and
`handleImplementationCompleted` then rewrites the matching recommendation's
status from `'warning'` to `'ok'`. -/
theorem c1_dry_run_rewrites_status_cex :
    (cardImplement "check-1" true (Except.ok c1Response)).2.2
      = some { checkId := "check-1", success := true, savings := some 0 } ∧
    c1ListState.recommendations.map FrontRec.status = ["warning"] ∧
    (handleImplementationCompleted c1ListState
        { checkId := "check-1", success := true, savings := some 0 }).recommendations.map
      FrontRec.status = ["ok"] :=
  ⟨rfl, rfl, rfl⟩

/-- C1 (amended): in the spec-modelled coordinator a dry run realizes zero
savings, returns the recommendation unchanged (status and
`estimatedSavingsPerMonth` untouched), and clears the transient `InProgress`
flag before the call returns. (The original claim's clause that a completed
dry run never rewrites the recommendation's stored status fails on the
frontend code: see the counterexample.) -/
theorem c1_dry_run_frame (registry : Registry) (auto : AutomationFun)
    (rec : Recommendation) (st : CoordState)
    (hfree : st.statuses rec.id ≠ ImplState.InProgress)
    (hauto : registry rec.kind = some auto) :
    ∃ res, (implement registry rec true st).1 = Except.ok res ∧
      res.savingsRealized = 0 ∧ res.dryRun = true ∧
      (implement registry rec true st).2.2 = rec ∧
      (implement registry rec true st).2.1.statuses rec.id ≠ ImplState.InProgress := by
  simp only [implement, beginImplement_ok st rec.id hfree, hauto]
  refine ⟨_, rfl, ?_, ?_, ?_, ?_⟩
  · simp [runAfterBegin, savingsFor]
  · simp [runAfterBegin]
  · simp [runAfterBegin]
  · simp only [runAfterBegin]
    simpa using classifyRun_ne_inProgress (auto rec.affectedResources true)

/-- Witness for C1's amended theorem at a concrete dry-run request. -/
theorem c1_dry_run_frame_witness :
    ∃ res, (implement (fun _ => some c3Auto) c2Rec true initialCoordState).1
        = Except.ok res ∧
      res.savingsRealized = 0 ∧ res.dryRun = true ∧
      (implement (fun _ => some c3Auto) c2Rec true initialCoordState).2.2 = c2Rec ∧
      (implement (fun _ => some c3Auto) c2Rec true
          initialCoordState).2.1.statuses c2Rec.id ≠ ImplState.InProgress :=
  c1_dry_run_frame (fun _ => some c3Auto) c3Auto c2Rec initialCoordState
    (by decide) rfl

end FinOps

